import Mathlib

/-!
Verification of the CRUD route handlers in
`fastapi_crudrouter/core/sqlalchemy.py` (class `SQLAlchemyCRUDRouter`).

The handlers are embedded shallowly: a `Record` is a row modelled as an
association list of field name / value pairs, a `DB` is the table state
together with the primary-key column and the set of columns carrying a
uniqueness constraint, and each route factory's inner `route` function
becomes a Lean function from the request data (and the `DB`) to the new
`DB` and an `Except`-value modelling the Python control flow (a normal
return or a raised exception).
-/

/-- A field value as it occurs in a row or in a parsed filter document
(the filter JSON in the source carries strings and numbers). -/
inductive Value where
  | vStr (s : String)
  | vInt (n : Int)
deriving DecidableEq, Repr

/-- One persisted row: an association list from column name to value.
This models an instance of `self.db_model`. -/
structure Record where
  fields : List (String × Value)
deriving DecidableEq, Repr

/-- Attribute lookup on a row (`getattr(db_model, key)` resp. column access):
the value bound to the first occurrence of the name, if any. -/
def lookupField : List (String × Value) → String → Option Value
  | [], _ => none
  | kv :: rest, a => if kv.1 = a then some kv.2 else lookupField rest a

/-- `r.get a` is the value of column `a` on row `r`, `none` when the row has
no such attribute (`hasattr` is `(r.get a).isSome`). -/
def Record.get (r : Record) (a : String) : Option Value :=
  lookupField r.fields a

/-- `setattr(db_model, key, value)`: rebind the named attribute.  In the
handlers it is only reached under a `hasattr` guard, so it never adds a
binding; rebinding every occurrence of the name keeps the model total. -/
def Record.setField (r : Record) (k : String) (v : Value) : Record :=
  ⟨r.fields.map (fun p => if p.1 = k then (p.1, v) else p)⟩

/-- The table state seen by one router: the primary-key column name
(`self._pk`, the first primary-key column of the model), the columns under
a uniqueness constraint (the primary key among them, as in SQL), and the
committed rows in insertion order. -/
structure DB where
  pk : String
  uniqueCols : List String
  records : List Record
deriving DecidableEq, Repr

/-- Exceptions the embedded handlers can surface, mirroring the Python
exceptions that can escape a route body. -/
inductive PyErr where
  /-- `fastapi.HTTPException(status_code, detail)`. -/
  | httpException (status : Nat) (detail : String)
  /-- `json.JSONDecodeError` raised by `json.loads` on malformed input. -/
  | jsonDecodeError
  /-- `TypeError` raised by the interpreter on a call that misses a
  required positional argument. -/
  | typeError
deriving DecidableEq, Repr

/-- Modelled from the spec: the web framework's error-to-status mapping
(the framework itself is outside this repository).  An `HTTPException`
carries its own status code; per the spec every other uncaught exception
"surfaces as a server fault", i.e. an HTTP 500 response. -/
def pyStatus : PyErr → Nat
  | .httpException s _ => s
  | _ => 500

/-- Modelled from the spec: the `NOT_FOUND` constant imported from the
core package (`core/__init__.py` is not among the sources); the spec maps
absent-record lookups to a NotFound response, "404-equivalent". -/
def NOT_FOUND : PyErr := .httpException 404 "Not Found"

/-- A parsed filter document: the JSON object `{"attr": [v, ...], ...}`
as a list of attribute / value-list pairs in document order. -/
abbrev FilterSpec := List (String × List Value)

/-- The filtering loop of `_get_all`: for each filter entry one
`query.filter(or_(getattr(model, attr) == v for v in value))` call, i.e.
successive (conjunctive) filters, each a disjunction over the entry's
value list. -/
def applyFilterSpec (recs : List Record) (fs : FilterSpec) : List Record :=
  fs.foldl
    (fun q av => q.filter (fun r => av.2.any (fun v => decide (r.get av.1 = some v))))
    recs

/-- The query `_get_all` evaluates before pagination: the raw table,
filtered when a filter document is present. -/
def filteredQuery (db : DB) (fs : Option FilterSpec) : List Record :=
  match fs with
  | some f => applyFilterSpec db.records f
  | none => db.records

/-- `query.limit(limit).offset(skip).all()`: SQLAlchemy renders this as
`LIMIT limit OFFSET skip`, and SQL applies the offset before the limit;
`limit=None` means no `LIMIT` clause. -/
def sqlPage (limit : Option Nat) (skip : Nat) (xs : List Record) : List Record :=
  match limit with
  | none => xs.drop skip
  | some n => (xs.drop skip).take n

/-- The Content-Range header value set by `_get_all`:
`f"{skip}-{skip + len(db_models) - 1}/{total}"` (Python `int` arithmetic,
so the end index may be negative). -/
def contentRangeHeader (skip returned total : Nat) : String :=
  let lo := (skip : Int)
  let hi := (skip : Int) + (returned : Int) - 1
  s!"{lo}-{hi}/{total}"

/-- What a successful `_get_all` request produces: the returned rows, the
`query.count()` value, and the Content-Range header written to the
response object. -/
structure ListResult where
  items : List Record
  total : Nat
  contentRange : String
deriving DecidableEq, Repr

/-- The body of `_get_all`'s `route` after the filter string has been
parsed: build the query, filter it if a filter document is present, take
`total = query.count()`, then fetch with limit/offset and set the header. -/
def get_all_core (db : DB) (skip : Nat) (limit : Option Nat) (fs : Option FilterSpec) :
    ListResult :=
  let query := filteredQuery db fs
  let total := query.length
  let dbModels := sqlPage limit skip query
  { items := dbModels
    total := total
    contentRange := contentRangeHeader skip dbModels.length total }

/-! ### A model of `json.loads` on the documented filter shape

The source documents the filter as
`{"id": ["44022001-...", "1d0943fc-..."]}` — a JSON object whose values
are arrays of scalars.  `json_loads_filter` parses exactly that shape
(strings without escape sequences, integers); any other input is a parse
failure, modelling the `json.JSONDecodeError` raised by `json.loads`. -/

/-- JSON insignificant whitespace. -/
def isJsonWs (c : Char) : Bool :=
  c = ' ' || c = '\t' || c = '\n' || c = '\r'

/-- Drop leading JSON whitespace. -/
def skipWs : List Char → List Char
  | [] => []
  | c :: cs => if isJsonWs c then skipWs cs else c :: cs

/-- Read the characters of a JSON string up to the closing quote
(escape sequences are outside the modelled subset). -/
def parseStrChars : List Char → Option (List Char × List Char)
  | [] => none
  | c :: cs =>
    if c = '"' then some ([], cs)
    else if c = '\\' then none
    else match parseStrChars cs with
      | some (s, rest) => some (c :: s, rest)
      | none => none

/-- Split off a maximal run of ASCII digits. -/
def takeDigits : List Char → (List Char × List Char)
  | [] => ([], [])
  | c :: cs =>
    if c.isDigit then
      let p := takeDigits cs
      (c :: p.1, p.2)
    else ([], c :: cs)

/-- Decimal value of a digit run. -/
def digitsToNat (ds : List Char) : Nat :=
  ds.foldl (fun a c => a * 10 + (c.toNat - 48)) 0

/-- Parse one scalar: a string or a (possibly negative) integer. -/
def parseScalar (cs : List Char) : Option (Value × List Char) :=
  match skipWs cs with
  | '"' :: rest =>
    match parseStrChars rest with
    | some (s, rest2) => some (.vStr ⟨s⟩, rest2)
    | none => none
  | '-' :: rest =>
    match takeDigits rest with
    | ([], _) => none
    | (ds, rest2) => some (.vInt (-(digitsToNat ds : Int)), rest2)
  | cs2 =>
    match takeDigits cs2 with
    | ([], _) => none
    | (ds, rest2) => some (.vInt (digitsToNat ds), rest2)

/-- Parse the elements of a non-empty JSON array, after the opening `[`
and before the first element; consumes the closing `]`. -/
def parseArrayItems : Nat → List Char → Option (List Value × List Char)
  | 0, _ => none
  | fuel + 1, cs =>
    match parseScalar cs with
    | none => none
    | some (v, rest) =>
      match skipWs rest with
      | ',' :: rest2 =>
        match parseArrayItems fuel rest2 with
        | some (vs, rest3) => some (v :: vs, rest3)
        | none => none
      | ']' :: rest2 => some ([v], rest2)
      | _ => none

/-- Parse a JSON array of scalars, including the brackets. -/
def parseArray (fuel : Nat) (cs : List Char) : Option (List Value × List Char) :=
  match skipWs cs with
  | '[' :: rest =>
    match skipWs rest with
    | ']' :: rest2 => some ([], rest2)
    | rest2 => parseArrayItems fuel rest2
  | _ => none

/-- Parse the members of a non-empty JSON object whose values are arrays,
after the opening `{` and before the first key; consumes the closing
brace. -/
def parseObjectItems : Nat → List Char → Option (FilterSpec × List Char)
  | 0, _ => none
  | fuel + 1, cs =>
    match skipWs cs with
    | '"' :: rest =>
      match parseStrChars rest with
      | none => none
      | some (key, rest2) =>
        match skipWs rest2 with
        | ':' :: rest3 =>
          match parseArray fuel rest3 with
          | none => none
          | some (vs, rest4) =>
            match skipWs rest4 with
            | ',' :: rest5 =>
              match parseObjectItems fuel rest5 with
              | some (f, rest6) => some ((⟨key⟩, vs) :: f, rest6)
              | none => none
            | '}' :: rest5 => some ([(⟨key⟩, vs)], rest5)
            | _ => none
        | _ => none
    | _ => none

/-- `json.loads(filter)` on the documented filter shape: an object whose
values are arrays of scalars, or a `JSONDecodeError`. -/
def json_loads_filter (s : String) : Except PyErr FilterSpec :=
  match skipWs s.data with
  | '{' :: rest =>
    match skipWs rest with
    | '}' :: rest2 =>
      if (skipWs rest2).isEmpty then .ok [] else .error .jsonDecodeError
    | rest2 =>
      match parseObjectItems (s.length + 1) rest2 with
      | some (f, rest3) =>
        if (skipWs rest3).isEmpty then .ok f else .error .jsonDecodeError
      | none => .error .jsonDecodeError
  | _ => .error .jsonDecodeError

/-- The `route` closure returned by `_get_all`.  Its first parameter
`response` is a required positional parameter with no default value:
a call that does not supply it raises `TypeError` before the body runs
(Python call semantics), which the `Option Unit` argument models.  The
body treats an empty filter string like an absent one (`if filter:` —
the empty string is falsy in Python), parses a present filter string
with `json.loads` (the parse error propagates, there is no handler),
and otherwise delegates to `get_all_core`.  The `sort` parameter is
accepted and never used, as in the source. -/
def get_all_route (response : Option Unit) (db : DB) (skip : Nat)
    (limit : Option Nat) (filt : Option String) (sort : Option String) :
    Except PyErr ListResult :=
  match response with
  | none => .error .typeError
  | some _ =>
    match filt with
    | none => .ok (get_all_core db skip limit none)
    | some s =>
      if s = "" then .ok (get_all_core db skip limit none)
      else
        match json_loads_filter s with
        | .error e => .error e
        | .ok fs => .ok (get_all_core db skip limit (some fs))

/-- The `route` closure returned by `_get_one`:
`db.query(self.db_model).get(item_id)` is a primary-key lookup; a found
row is returned, otherwise `NOT_FOUND` is raised. -/
def get_one_route (db : DB) (itemId : Value) : Except PyErr Record :=
  match db.records.find? (fun r => decide (r.get db.pk = some itemId)) with
  | some r => .ok r
  | none => .error NOT_FOUND

/-- Does inserting `r` into the current table violate a uniqueness
constraint? (the condition under which `db.commit()` raises
`IntegrityError` for an insert). -/
def violatesAmong (others : List Record) (cols : List String) (r : Record) : Bool :=
  cols.any (fun c =>
    match r.get c with
    | some v => others.any (fun r2 => decide (r2.get c = some v))
    | none => false)

/-- Uniqueness check of a fresh row against the whole table. -/
def violatesUnique (db : DB) (r : Record) : Bool :=
  violatesAmong db.records db.uniqueCols r

/-- The `route` closure returned by `_create`:
`self.db_model(**model.dict())` builds a row holding exactly the payload's
fields; `db.add` + `db.commit` persist it, and on `IntegrityError` the
transaction is rolled back and `HTTPException(422, "Key already exists")`
is raised. -/
def create_route (db : DB) (payload : List (String × Value)) :
    DB × Except PyErr Record :=
  let dbm : Record := ⟨payload⟩
  if violatesUnique db dbm then
    (db, .error (.httpException 422 "Key already exists"))
  else
    ({ db with records := db.records ++ [dbm] }, .ok dbm)

/-- The update loop of `_update`: `model.dict(exclude={self._pk})` drops
the primary-key field from the payload, and each remaining pair is applied
only under `hasattr(db_model, key)`. -/
def applyPayload (pk : String) (r : Record) (payload : List (String × Value)) :
    Record :=
  payload.foldl
    (fun acc kv =>
      if kv.1 = pk then acc
      else if (acc.get kv.1).isSome then acc.setField kv.1 kv.2
      else acc)
    r

/-- Replace the first row satisfying the predicate (the fetched ORM object
is mutated in place; commit persists the mutation). -/
def replaceFirst (p : Record → Bool) (r : Record) : List Record → List Record
  | [] => []
  | x :: xs => if p x then r :: xs else x :: replaceFirst p r xs

/-- Drop the first row satisfying the predicate (the rows an updated row
is checked against for uniqueness are all the others). -/
def removeFirst (p : Record → Bool) : List Record → List Record
  | [] => []
  | x :: xs => if p x then xs else x :: removeFirst p xs

/-- The `route` closure returned by `_update`: fetch via the `_get_one`
route (its `NOT_FOUND` propagates), apply the payload, commit; on
`IntegrityError` roll back and raise `HTTPException(422, ...)` (the detail
string is the joined exception arguments, modelled as a fixed string). -/
def update_route (db : DB) (itemId : Value) (payload : List (String × Value)) :
    DB × Except PyErr Record :=
  match get_one_route db itemId with
  | .error e => (db, .error e)
  | .ok r =>
    let isTarget := fun x : Record => decide (x.get db.pk = some itemId)
    let r2 := applyPayload db.pk r payload
    if violatesAmong (removeFirst isTarget db.records) db.uniqueCols r2 then
      (db, .error (.httpException 422 "integrity error"))
    else
      ({ db with records := replaceFirst isTarget r2 db.records }, .ok r2)

/-- The `route` closure returned by `_delete_one`: fetch via the
`_get_one` route, then delete and commit. -/
def delete_one_route (db : DB) (itemId : Value) : DB × Except PyErr Record :=
  match get_one_route db itemId with
  | .error e => (db, .error e)
  | .ok r =>
    let isTarget := fun x : Record => decide (x.get db.pk = some itemId)
    ({ db with records := removeFirst isTarget db.records }, .ok r)

/-- The `route` closure returned by `_delete_all`:
`db.query(self.db_model).delete()` followed by `db.commit()` empties the
table; the return expression then calls the `_get_all` route as
`self._get_all()(db=db, pagination={"skip": 0, "limit": None})` — without
the route's required `response` argument — so the call raises `TypeError`
after the deletion has been committed. -/
def delete_all_route (db : DB) : DB × Except PyErr ListResult :=
  let db2 := { db with records := ([] : List Record) }
  (db2, get_all_route none db2 0 none none none)

/-! ### Route prefix -/

/-- Model of Python `str.lower()` restricted to the ASCII case mapping
(`Char.toLower`). -/
def pyLower (s : String) : String :=
  ⟨s.data.map Char.toLower⟩

/-- Modelled from the spec: the `CRUDGenerator` base class
(`core/_base.py` is not among the sources) receives the prefix chosen by
`SQLAlchemyCRUDRouter.__init__` and, per the spec, the route group's path
prefix is the chosen name "normalized to lowercase". -/
def crudGeneratorNormalize (p : String) : String :=
  pyLower p

/-- The prefix `SQLAlchemyCRUDRouter.__init__` hands to the base class:
`prefix or db_model.__tablename__` (Python `or`: `None` and the empty
string are falsy), then the base class's normalization. -/
def sqlalchemyRoutePath (p : Option String) (tablename : String) : String :=
  let chosen :=
    match p with
    | some s => if s = "" then tablename else s
    | none => tablename
  crudGeneratorNormalize chosen

/-! ### Request sequences -/

/-- The state after a sequence of create requests (each request's state,
committed or rolled back, feeds the next). -/
def createMany (db : DB) (ps : List (List (String × Value))) : DB :=
  ps.foldl (fun d p => (create_route d p).1) db

/-- Does every create in the sequence succeed? -/
def createAllOk (db : DB) : List (List (String × Value)) → Bool
  | [] => true
  | p :: ps => !violatesUnique db ⟨p⟩ && createAllOk (create_route db p).1 ps

/-- The Content-Range shape claimed for an empty result page: the end
index is one less than the start index. -/
def contentRangeEmptyShape (skip total : Nat) : String :=
  let lo := (skip : Int)
  let hi := (skip : Int) - 1
  s!"{lo}-{hi}/{total}"

/-! ### Sample states used by the witnesses -/

/-- An empty table keyed on `id`. -/
def dbEmpty : DB := ⟨"id", ["id"], []⟩

/-- A one-row table keyed on `id`. -/
def dbOne : DB :=
  ⟨"id", ["id"], [⟨[("id", .vInt 1), ("name", .vStr "a")]⟩]⟩

/-- Two create payloads with distinct keys. -/
def psTwo : List (List (String × Value)) :=
  [[("id", .vInt 1)], [("id", .vInt 2)]]

/-! ### Theorems -/

/-- The header `_get_all` writes for a page of zero rows: the end index
`skip + 0 - 1` collapses to `skip - 1`. -/
theorem contentRangeHeader_zero (skip t : Nat) :
    contentRangeHeader skip 0 t = contentRangeEmptyShape skip t := by
  simp only [contentRangeHeader, contentRangeEmptyShape, Nat.cast_zero, add_zero]

/-- C10: for every list request that returns zero items, the Content-Range
header equals `"{skip}-{skip-1}/{total}"` — the end index of the reported
range is one less than the start index. -/
theorem empty_page_content_range (db : DB) (skip : Nat) (lim : Option Nat)
    (fs : Option FilterSpec)
    (h : (get_all_core db skip lim fs).items = []) :
    (get_all_core db skip lim fs).contentRange
      = contentRangeEmptyShape skip (get_all_core db skip lim fs).total := by
  have hcr : (get_all_core db skip lim fs).contentRange
      = contentRangeHeader skip (get_all_core db skip lim fs).items.length
          (get_all_core db skip lim fs).total := rfl
  rw [hcr, h]
  exact contentRangeHeader_zero skip _

/-- Witness for C10: listing an empty table with `skip = 0` returns no
items and the header `"0--1/0"`. -/
theorem empty_page_content_range_witness :
    (get_all_core dbEmpty 0 none none).items = [] ∧
    (get_all_core dbEmpty 0 none none).contentRange
      = contentRangeEmptyShape 0 (get_all_core dbEmpty 0 none none).total ∧
    contentRangeEmptyShape 0 0 = "0--1/0" :=
  ⟨rfl, empty_page_content_range dbEmpty 0 none none rfl, rfl⟩

/-- C2 (as the code behaves): `_delete_all` empties the table and commits,
but its return expression calls the `_get_all` route without the route's
required `response` argument, so the request raises `TypeError` and
surfaces as a 500 server fault — not the empty list response with a
Content-Range header that the claim describes. -/
theorem delete_all_raises_type_error (db : DB) :
    (delete_all_route db).1.records = [] ∧
    (delete_all_route db).2 = .error .typeError ∧
    pyStatus .typeError = 500 :=
  ⟨rfl, rfl, rfl⟩

/-- C9: the `sort` query parameter of the list endpoint is inert — two
list requests differing only in `sort` produce identical results
(items, count and Content-Range header alike). -/
theorem sort_param_inert (resp : Option Unit) (db : DB) (skip : Nat)
    (lim : Option Nat) (filt : Option String) (s1 s2 : Option String) :
    get_all_route resp db skip lim filt s1 = get_all_route resp db skip lim filt s2 :=
  rfl

/-- C3 (amended): a non-empty filter string on which JSON parsing fails
makes the list request fail with the parse error, and the error surfaces
as a 500 server fault (there is no handler turning it into a client
error). -/
theorem malformed_json_surfaces_server_fault
    (db : DB) (skip : Nat) (lim : Option Nat) (s : String) (srt : Option String)
    (hs : ¬ s = "") (hparse : json_loads_filter s = .error .jsonDecodeError) :
    get_all_route (some ()) db skip lim (some s) srt = .error .jsonDecodeError ∧
    pyStatus .jsonDecodeError = 500 := by
  simp only [get_all_route]
  rw [if_neg hs, hparse]
  exact ⟨rfl, rfl⟩

/-- Counterexample to C3 as stated: with the malformed filter string
`"not json"` the request fails with the uncaught JSON decode error, whose
surfaced status is 500 — a server fault, not a 4xx client error such as
BadRequest. -/
theorem malformed_json_not_client_error :
    get_all_route (some ()) dbOne 0 none (some "not json") none
      = .error .jsonDecodeError ∧
    pyStatus .jsonDecodeError = 500 ∧
    ¬ (400 ≤ pyStatus .jsonDecodeError ∧ pyStatus .jsonDecodeError < 500) :=
  ⟨rfl, rfl, by decide⟩

/-- Witness for the amended C3 at the concrete filter string `"not json"`. -/
theorem malformed_json_witness :
    ¬ ("not json" = "") ∧
    json_loads_filter "not json" = .error .jsonDecodeError ∧
    (get_all_route (some ()) dbEmpty 1 (some 5) (some "not json") (some "x")
        = .error .jsonDecodeError ∧
      pyStatus .jsonDecodeError = 500) :=
  ⟨by decide, rfl,
    malformed_json_surfaces_server_fault dbEmpty 1 (some 5) "not json" (some "x")
      (by decide) rfl⟩

/-- C5: a create whose payload violates a uniqueness constraint fails with
Conflict (422), rolls the transaction back and leaves the state (hence the
record count) unchanged; a create that does not violate a constraint
persists exactly one new record — the payload's row appended to the
table — and returns it. -/
theorem create_conflict_or_insert (db : DB) (payload : List (String × Value)) :
    (violatesUnique db ⟨payload⟩ = true →
      create_route db payload
        = (db, .error (.httpException 422 "Key already exists"))) ∧
    (violatesUnique db ⟨payload⟩ = false →
      create_route db payload
        = ({ db with records := db.records ++ [⟨payload⟩] }, .ok ⟨payload⟩)) := by
  unfold create_route
  constructor
  · intro h
    rw [if_pos h]
  · intro h
    rw [if_neg (by simp [h])]

/-- Witness for C5: inserting a duplicate `id` into `dbOne` conflicts and
leaves the table unchanged; inserting a fresh `id` grows it by one row. -/
theorem create_conflict_or_insert_witness :
    violatesUnique dbOne ⟨[("id", Value.vInt 1)]⟩ = true ∧
    create_route dbOne [("id", Value.vInt 1)]
      = (dbOne, .error (.httpException 422 "Key already exists")) ∧
    violatesUnique dbOne ⟨[("id", Value.vInt 2)]⟩ = false ∧
    (create_route dbOne [("id", Value.vInt 2)]).1.records.length
      = dbOne.records.length + 1 :=
  ⟨by decide, (create_conflict_or_insert dbOne [("id", Value.vInt 1)]).1 (by decide),
    by decide, by decide⟩

/-- A successful create appends the payload's row and nothing else, so a
sequence of successful creates grows the table by its length. -/
theorem createMany_records_length (ps : List (List (String × Value))) :
    ∀ db : DB, createAllOk db ps = true →
      (createMany db ps).records.length = db.records.length + ps.length := by
  induction ps with
  | nil =>
    intro db _
    simp [createMany]
  | cons p ps ih =>
    intro db h
    simp only [createAllOk, Bool.and_eq_true, Bool.not_eq_true'] at h
    obtain ⟨h1, h2⟩ := h
    have hstep : (create_route db p).1 = { db with records := db.records ++ [⟨p⟩] } := by
      unfold create_route
      rw [if_neg (by simp [h1])]
    have hfold : createMany db (p :: ps) = createMany (create_route db p).1 ps := rfl
    rw [hfold, ih _ h2, hstep]
    simp [Nat.add_assoc, Nat.add_comm 1 ps.length]

/-- C1: the list handler filters first, takes `total` as the count of the
filtered query before any skip/limit, then paginates, and reports
`"{skip}-{skip+returned-1}/{total}"`; consequently, after N successful
creates into an empty table, a list with limit L < N reports denominator
N regardless of L (and with skip 0 returns exactly L rows). -/
theorem list_total_counted_before_pagination
    (db0 : DB) (ps : List (List (String × Value))) (skip L : Nat)
    (h0 : db0.records = []) (hok : createAllOk db0 ps = true)
    (hL : L < ps.length) :
    (∀ (d : DB) (sk : Nat) (lim : Option Nat) (f : Option FilterSpec),
      (get_all_core d sk lim f).total = (filteredQuery d f).length ∧
      (get_all_core d sk lim f).items = sqlPage lim sk (filteredQuery d f) ∧
      (get_all_core d sk lim f).contentRange
        = contentRangeHeader sk (sqlPage lim sk (filteredQuery d f)).length
            (filteredQuery d f).length) ∧
    (get_all_core (createMany db0 ps) skip (some L) none).total = ps.length ∧
    (get_all_core (createMany db0 ps) 0 (some L) none).contentRange
      = contentRangeHeader 0 L ps.length := by
  have hlen : (createMany db0 ps).records.length = ps.length := by
    rw [createMany_records_length ps db0 hok, h0]
    simp
  refine ⟨fun d sk lim f => ⟨rfl, rfl, rfl⟩, ?_, ?_⟩
  · have htot : (get_all_core (createMany db0 ps) skip (some L) none).total
        = (createMany db0 ps).records.length := rfl
    rw [htot, hlen]
  · have hcr : (get_all_core (createMany db0 ps) 0 (some L) none).contentRange
        = contentRangeHeader 0
            (get_all_core (createMany db0 ps) 0 (some L) none).items.length
            (createMany db0 ps).records.length := rfl
    have hitems : (get_all_core (createMany db0 ps) 0 (some L) none).items.length = L := by
      have : (get_all_core (createMany db0 ps) 0 (some L) none).items
          = ((createMany db0 ps).records.drop 0).take L := rfl
      rw [this]
      simp only [List.drop_zero, List.length_take]
      rw [hlen]
      omega
    rw [hcr, hitems, hlen]

/-- Witness for C1: two creates into the empty table, then a list with
limit 1 still reports total 2. -/
theorem list_total_witness :
    dbEmpty.records = [] ∧
    createAllOk dbEmpty psTwo = true ∧
    1 < psTwo.length ∧
    (get_all_core (createMany dbEmpty psTwo) 0 (some 1) none).total = psTwo.length :=
  ⟨rfl, by decide, by decide,
    (list_total_counted_before_pagination dbEmpty psTwo 0 1 rfl (by decide)
        (by decide)).2.1⟩

/-- Packing a valid codepoint and reading it back is the identity. -/
theorem char_toNat_ofNat_valid (n : Nat) (h : n.isValidChar) :
    (Char.ofNat n).toNat = n := by
  unfold Char.ofNat
  rw [dif_pos h]
  rfl

/-- ASCII lowercasing is idempotent. -/
theorem char_toLower_idem (c : Char) : (Char.toLower c).toLower = Char.toLower c := by
  have hout : ∀ d : Char, ¬(d.toNat ≥ 65 ∧ d.toNat ≤ 90) → Char.toLower d = d := by
    intro d hd
    simp only [Char.toLower]
    rw [if_neg hd]
  have hin : ∀ d : Char, (d.toNat ≥ 65 ∧ d.toNat ≤ 90) →
      Char.toLower d = Char.ofNat (d.toNat + 32) := by
    intro d hd
    simp only [Char.toLower]
    rw [if_pos hd]
  by_cases h : c.toNat ≥ 65 ∧ c.toNat ≤ 90
  · rw [hin c h]
    refine hout _ ?_
    rw [char_toNat_ofNat_valid _ (Or.inl (by omega))]
    omega
  · rw [hout c h]
    exact hout c h

/-- The modelled `str.lower` is idempotent. -/
theorem pyLower_idem (s : String) : pyLower (pyLower s) = pyLower s := by
  unfold pyLower
  congr 1
  rw [List.map_map]
  exact List.map_congr_left (fun a _ => char_toLower_idem a)

/-- The modelled `str.lower` maps non-empty strings to non-empty strings. -/
theorem pyLower_ne_empty (s : String) (h : ¬ s = "") : ¬ pyLower s = "" := by
  intro hc
  apply h
  have hdata : s.data.map Char.toLower = [] := congrArg String.data hc
  exact String.ext (List.map_eq_nil_iff.mp hdata)

/-- C4: with no caller-supplied prefix the route path is the table name
normalized to lowercase, and for every generated route path the path
equals its own lowercase form and is non-empty (given a non-empty table
name, as SQLAlchemy requires). -/
theorem route_path_lowercase (p : Option String) (tablename : String)
    (ht : ¬ tablename = "") :
    sqlalchemyRoutePath none tablename = pyLower tablename ∧
    sqlalchemyRoutePath p tablename = pyLower (sqlalchemyRoutePath p tablename) ∧
    ¬ sqlalchemyRoutePath p tablename = "" := by
  refine ⟨rfl, ?_, ?_⟩
  · simp only [sqlalchemyRoutePath, crudGeneratorNormalize]
    exact (pyLower_idem _).symm
  · simp only [sqlalchemyRoutePath, crudGeneratorNormalize]
    cases p with
    | none => exact pyLower_ne_empty _ ht
    | some s =>
      show ¬ pyLower (if s = "" then tablename else s) = ""
      by_cases hs : s = ""
      · rw [if_pos hs]
        exact pyLower_ne_empty _ ht
      · rw [if_neg hs]
        exact pyLower_ne_empty _ hs

/-- Witness for C4: table name `"Potato"` yields route path `"potato"`. -/
theorem route_path_lowercase_witness :
    ¬ ("Potato" = "") ∧
    sqlalchemyRoutePath none "Potato" = pyLower "Potato" ∧
    ¬ sqlalchemyRoutePath none "Potato" = "" ∧
    sqlalchemyRoutePath none "Potato" = "potato" :=
  ⟨by decide, (route_path_lowercase none "Potato" (by decide)).1,
    (route_path_lowercase none "Potato" (by decide)).2.2, by decide⟩

/-- Rebinding one attribute leaves lookups of any other attribute alone. -/
theorem lookupField_map_rebind (fs : List (String × Value)) (k a : String)
    (v : Value) (hne : ¬ k = a) :
    lookupField (fs.map (fun p => if p.1 = k then (p.1, v) else p)) a
      = lookupField fs a := by
  induction fs with
  | nil => rfl
  | cons kv rest ih =>
    by_cases hk : kv.1 = k
    · have ha : ¬ kv.1 = a := fun h => hne (hk.symm.trans h)
      simp [lookupField, hk, ha, hne, ih]
    · by_cases ha : kv.1 = a
      · have hk2 : ¬ a = k := fun h => hk (ha.trans h)
        simp [lookupField, hk, ha, hk2]
      · simp [lookupField, hk, ha, ih]

/-- `setattr` on one attribute does not change any other attribute. -/
theorem setField_get_ne (r : Record) (k a : String) (v : Value) (hne : ¬ k = a) :
    (r.setField k v).get a = r.get a :=
  lookupField_map_rebind r.fields k a v hne

/-- The update loop never touches the primary-key attribute: it is
excluded from the payload before the loop. -/
theorem applyPayload_get_pk (pk : String) (payload : List (String × Value)) :
    ∀ r : Record, (applyPayload pk r payload).get pk = r.get pk := by
  induction payload with
  | nil =>
    intro r
    rfl
  | cons kv rest ih =>
    intro r
    have hstep : applyPayload pk r (kv :: rest)
        = applyPayload pk
            (if kv.1 = pk then r
             else if (r.get kv.1).isSome then r.setField kv.1 kv.2 else r)
            rest := rfl
    rw [hstep, ih]
    by_cases h : kv.1 = pk
    · rw [if_pos h]
    · rw [if_neg h]
      by_cases h2 : (r.get kv.1).isSome
      · rw [if_pos h2]
        exact setField_get_ne r kv.1 pk kv.2 h
      · rw [if_neg h2]

/-- The update loop leaves every attribute not named in the payload
unchanged. -/
theorem applyPayload_get_notin (pk a : String) :
    ∀ (payload : List (String × Value)) (r : Record),
      (∀ kv ∈ payload, ¬ kv.1 = a) →
      (applyPayload pk r payload).get a = r.get a := by
  intro payload
  induction payload with
  | nil =>
    intro r _
    rfl
  | cons kv rest ih =>
    intro r ha
    have hk : ¬ kv.1 = a := ha kv (List.mem_cons_self kv rest)
    have hrest : ∀ x ∈ rest, ¬ x.1 = a :=
      fun x hx => ha x (List.mem_cons_of_mem kv hx)
    have hstep : applyPayload pk r (kv :: rest)
        = applyPayload pk
            (if kv.1 = pk then r
             else if (r.get kv.1).isSome then r.setField kv.1 kv.2 else r)
            rest := rfl
    rw [hstep, ih _ hrest]
    by_cases h : kv.1 = pk
    · rw [if_pos h]
    · rw [if_neg h]
      by_cases h2 : (r.get kv.1).isSome
      · rw [if_pos h2]
        exact setField_get_ne r kv.1 a kv.2 hk
      · rw [if_neg h2]

/-- C6: an update on an existing record applies only payload fields that
exist on the record and excludes the primary-key field, so the returned
(updated) record keeps the fetched record's primary key — even when the
payload names it — and keeps every field the payload does not name. -/
theorem update_excludes_pk_and_frames
    (db : DB) (itemId : Value) (payload : List (String × Value)) (r : Record)
    (hget : get_one_route db itemId = .ok r) :
    ∀ (db2 : DB) (r2 : Record),
      update_route db itemId payload = (db2, .ok r2) →
        r2.get db.pk = r.get db.pk ∧
        ∀ a, (∀ kv ∈ payload, ¬ kv.1 = a) → r2.get a = r.get a := by
  intro db2 r2 hupd
  have hmatch : (match get_one_route db itemId with
      | Except.error e => ((db, Except.error e) : DB × Except PyErr Record)
      | Except.ok r =>
        if violatesAmong
            (removeFirst (fun x : Record => decide (x.get db.pk = some itemId)) db.records)
            db.uniqueCols (applyPayload db.pk r payload) = true then
          (db, Except.error (PyErr.httpException 422 "integrity error"))
        else
          (DB.mk db.pk db.uniqueCols
              (replaceFirst (fun x : Record => decide (x.get db.pk = some itemId))
                (applyPayload db.pk r payload) db.records),
            Except.ok (applyPayload db.pk r payload)))
      = (db2, Except.ok r2) := hupd
  rw [hget] at hmatch
  have hif : (if violatesAmong
        (removeFirst (fun x : Record => decide (x.get db.pk = some itemId)) db.records)
        db.uniqueCols (applyPayload db.pk r payload) = true then
        ((db, Except.error (PyErr.httpException 422 "integrity error")) :
          DB × Except PyErr Record)
      else
        (DB.mk db.pk db.uniqueCols
            (replaceFirst (fun x : Record => decide (x.get db.pk = some itemId))
              (applyPayload db.pk r payload) db.records),
          Except.ok (applyPayload db.pk r payload)))
      = (db2, Except.ok r2) := hmatch
  by_cases hv : violatesAmong
      (removeFirst (fun x : Record => decide (x.get db.pk = some itemId)) db.records)
      db.uniqueCols (applyPayload db.pk r payload) = true
  · rw [if_pos hv] at hif
    have h2 : Except.error (PyErr.httpException 422 "integrity error")
        = (Except.ok r2 : Except PyErr Record) := congrArg Prod.snd hif
    exact absurd h2 (by simp)
  · rw [if_neg hv] at hif
    have h2 : Except.ok (applyPayload db.pk r payload)
        = (Except.ok r2 : Except PyErr Record) := congrArg Prod.snd hif
    have hr2 : r2 = applyPayload db.pk r payload := (Except.ok.inj h2).symm
    subst hr2
    exact ⟨applyPayload_get_pk db.pk payload r,
      fun a ha => applyPayload_get_notin db.pk a payload r ha⟩

/-- Witness for C6: updating the row with a payload that renames `id` to
9 and `name` to `"b"` keeps `id = 1`. -/
theorem update_frame_witness :
    get_one_route dbOne (Value.vInt 1)
      = .ok ⟨[("id", Value.vInt 1), ("name", Value.vStr "a")]⟩ ∧
    update_route dbOne (Value.vInt 1) [("id", Value.vInt 9), ("name", Value.vStr "b")]
      = (⟨"id", ["id"], [⟨[("id", Value.vInt 1), ("name", Value.vStr "b")]⟩]⟩,
          .ok ⟨[("id", Value.vInt 1), ("name", Value.vStr "b")]⟩) ∧
    (Record.mk [("id", Value.vInt 1), ("name", Value.vStr "b")]).get dbOne.pk
      = (Record.mk [("id", Value.vInt 1), ("name", Value.vStr "a")]).get dbOne.pk :=
  ⟨rfl, rfl,
    (update_excludes_pk_and_frames dbOne (Value.vInt 1)
        [("id", Value.vInt 9), ("name", Value.vStr "b")]
        ⟨[("id", Value.vInt 1), ("name", Value.vStr "a")]⟩ rfl
        ⟨"id", ["id"], [⟨[("id", Value.vInt 1), ("name", Value.vStr "b")]⟩]⟩
        ⟨[("id", Value.vInt 1), ("name", Value.vStr "b")]⟩ rfl).1⟩

/-- C7: a record is in the filtered query exactly when it is in the
underlying table and, for every listed attribute, its value at that
attribute is one of the attribute's acceptable values — conjunction
across distinct attributes, disjunction across one attribute's values. -/
theorem filter_conj_of_disj (fs : FilterSpec) :
    ∀ (recs : List Record) (r : Record),
      r ∈ applyFilterSpec recs fs ↔
        r ∈ recs ∧ ∀ av ∈ fs, ∃ v ∈ av.2, r.get av.1 = some v := by
  induction fs with
  | nil =>
    intro recs r
    simp [applyFilterSpec]
  | cons av rest ih =>
    intro recs r
    have hstep : applyFilterSpec recs (av :: rest)
        = applyFilterSpec
            (recs.filter (fun r => av.2.any (fun v => decide (r.get av.1 = some v))))
            rest := rfl
    rw [hstep, ih]
    simp only [List.mem_filter, List.any_eq_true, decide_eq_true_eq,
      List.forall_mem_cons]
    constructor
    · rintro ⟨⟨hr, hv⟩, hrest⟩
      exact ⟨hr, ⟨hv.choose, hv.choose_spec.1, hv.choose_spec.2⟩, hrest⟩
    · rintro ⟨hr, ⟨v, hv1, hv2⟩, hrest⟩
      exact ⟨⟨hr, ⟨v, hv1, hv2⟩⟩, hrest⟩

/-- C8: a create whose payload carries the (unique) primary key and does
not conflict, followed by a get-one with that key, returns exactly the
row built from the payload — its fields equal the payload's fields. -/
theorem create_then_get_one
    (db : DB) (payload : List (String × Value)) (k : Value)
    (hpk : db.pk ∈ db.uniqueCols)
    (hkey : (Record.mk payload).get db.pk = some k)
    (hok : violatesUnique db ⟨payload⟩ = false) :
    get_one_route (create_route db payload).1 k = .ok ⟨payload⟩ := by
  have hstate : (create_route db payload).1
      = { db with records := db.records ++ [⟨payload⟩] } := by
    unfold create_route
    rw [if_neg (by simp [hok])]
  rw [hstate]
  have hnone : ∀ r2 ∈ db.records, ¬ (r2.get db.pk = some k) := by
    intro r2 hr2 heq
    have hany : db.uniqueCols.any (fun c =>
        match (Record.mk payload).get c with
        | some v => db.records.any (fun r3 => decide (r3.get c = some v))
        | none => false) = true := by
      refine List.any_eq_true.mpr ⟨db.pk, hpk, ?_⟩
      rw [hkey]
      exact List.any_eq_true.mpr ⟨r2, hr2, by simpa using heq⟩
    have hfalse : db.uniqueCols.any (fun c =>
        match (Record.mk payload).get c with
        | some v => db.records.any (fun r3 => decide (r3.get c = some v))
        | none => false) = false := hok
    rw [hany] at hfalse
    exact Bool.noConfusion hfalse
  show (match ((db.records ++ [Record.mk payload]).find?
      (fun r => decide (r.get db.pk = some k))) with
    | some r => Except.ok r
    | none => Except.error NOT_FOUND) = Except.ok ⟨payload⟩
  rw [List.find?_append]
  have h1 : db.records.find? (fun r => decide (r.get db.pk = some k)) = none :=
    List.find?_eq_none.mpr (fun x hx => by simpa using hnone x hx)
  have h2 : [Record.mk payload].find? (fun r => decide (r.get db.pk = some k))
      = some ⟨payload⟩ := by
    simp [List.find?, hkey]
  rw [h1, h2]
  rfl

/-- Witness for C8: creating `{id: 7, name: "x"}` in the empty table and
fetching key 7 returns exactly that row. -/
theorem create_then_get_one_witness :
    dbEmpty.pk ∈ dbEmpty.uniqueCols ∧
    (Record.mk [("id", Value.vInt 7), ("name", Value.vStr "x")]).get dbEmpty.pk
      = some (Value.vInt 7) ∧
    violatesUnique dbEmpty ⟨[("id", Value.vInt 7), ("name", Value.vStr "x")]⟩ = false ∧
    get_one_route (create_route dbEmpty [("id", Value.vInt 7), ("name", Value.vStr "x")]).1
        (Value.vInt 7)
      = .ok ⟨[("id", Value.vInt 7), ("name", Value.vStr "x")]⟩ :=
  ⟨by decide, by decide, by decide,
    create_then_get_one dbEmpty [("id", Value.vInt 7), ("name", Value.vStr "x")]
      (Value.vInt 7) (by decide) (by decide) (by decide)⟩
